import Mathlib

set_option linter.unusedVariables false

/-
Verification of the Py2-to-Py3 update script (src/main.py) against its
natural-language specification.

The script is a thin orchestration layer around external processes.  We embed
it shallowly: every external collaborator (the interpreter version query, the
dependency-tree lister, the environment-marker evaluator, the 2to3 rewrite
tool, the filesystem) is an oracle stored in a `World` record, and every
observable effect of the script (process invocations, log-file writes, logger
messages, console prints, reading stdin) is recorded as an `Event` in the
order the Python code performs it.  Pure text processing (the two regular
expressions, `strip`, `lower`, `startswith`, `endswith`) is implemented
directly over `List Char`, faithful to the CPython semantics on ASCII input.
-/

/-- Python whitespace characters stripped by `str.strip()` (ASCII subset). -/
def pyWhitespaceChar (c : Char) : Bool :=
  c = ' ' || c = '\t' || c = '\n' || c = '\r' || c = '\x0b' || c = '\x0c'

/-- Model of Python `str.strip()`: drop leading and trailing whitespace. -/
def pyStrip (s : String) : String :=
  (((s.toList.dropWhile pyWhitespaceChar).reverse.dropWhile pyWhitespaceChar).reverse).asString

/-- Model of Python `str.lower()` (ASCII letters). -/
def pyLower (s : String) : String :=
  (s.toList.map Char.toLower).asString

/-- Model of Python `str.startswith(p)`. -/
def pyStartsWith (s p : String) : Bool :=
  p.toList.isPrefixOf s.toList

/-- Model of Python `str.endswith(p)`. -/
def pyEndsWith (s p : String) : Bool :=
  p.toList.isSuffixOf s.toList

/-- Longest run of characters satisfying `p` at the head of the list, and the
remainder.  Used to model greedy character-class repetition `[...]+` in the
regular expressions of `main.py` (greediness is exact here because in both
patterns the character following a repetition can never belong to the class
being repeated, so the regex engine never backtracks into the run). -/
def takeRun (p : Char → Bool) : List Char → List Char × List Char
  | [] => ([], [])
  | c :: cs =>
    if p c then
      let r := takeRun p cs
      (c :: r.1, r.2)
    else ([], c :: cs)

/-- Match a literal character sequence at the head of the input, returning the
remainder on success. -/
def matchLit : List Char → List Char → Option (List Char)
  | [], cs => some cs
  | _ :: _, [] => none
  | l :: ls, c :: cs => if c = l then matchLit ls cs else none

/-- Attempt to match the regex `Python (\d+\.\d+\.\d+)` of
`scan_python_version` at the current position, returning the captured group. -/
def matchVersionAt (cs : List Char) : Option String :=
  match matchLit "Python ".toList cs with
  | none => none
  | some rest0 =>
    let r1 := takeRun Char.isDigit rest0
    if r1.1.isEmpty then none
    else
      match r1.2 with
      | '.' :: rest1 =>
        let r2 := takeRun Char.isDigit rest1
        if r2.1.isEmpty then none
        else
          match r2.2 with
          | '.' :: rest2 =>
            let r3 := takeRun Char.isDigit rest2
            if r3.1.isEmpty then none
            else some (r1.1 ++ '.' :: r2.1 ++ '.' :: r3.1).asString
          | _ => none
      | _ => none

/-- Model of `re.search(r"Python (\d+\.\d+\.\d+)", s)`: leftmost match of the
pattern, returning group 1. -/
def searchVersion : List Char → Option String
  | [] => none
  | c :: cs =>
    match matchVersionAt (c :: cs) with
    | some v => some v
    | none => searchVersion cs

/-- Character class `[a-zA-Z0-9_-]` of the dependency regex. -/
def depNameChar (c : Char) : Bool :=
  c.isAlpha || c.isDigit || c = '_' || c = '-'

/-- Character class `[0-9.]` of the dependency regex. -/
def depVersionChar (c : Char) : Bool :=
  c.isDigit || c = '.'

/-- Attempt to match `([a-zA-Z0-9_-]+)==([0-9.]+)` at the current position,
returning both captured groups and the remainder after the match. -/
def matchDepAt (cs : List Char) : Option (String × String × List Char) :=
  let r1 := takeRun depNameChar cs
  if r1.1.isEmpty then none
  else
    match r1.2 with
    | '=' :: '=' :: rest =>
      let r2 := takeRun depVersionChar rest
      if r2.1.isEmpty then none
      else some (r1.1.asString, r2.1.asString, r2.2)
    | _ => none

/-- Fuel-indexed scan for `re.findall`: at each position try `matchDepAt`;
on success emit the pair and continue after the match (non-overlapping,
leftmost), otherwise advance one character.  Every step removes at least one
character from the input (a successful match removes at least three), so fuel
equal to the input length never runs out. -/
def findAllDepsAux : Nat → List Char → List (String × String)
  | _, [] => []
  | 0, _ :: _ => []
  | fuel + 1, c :: cs =>
    match matchDepAt (c :: cs) with
    | some (name, version, rest) => (name, version) :: findAllDepsAux fuel rest
    | none => findAllDepsAux fuel cs

/-- Model of the `re.findall` call of `scan_dependencies`, pattern
`([a-zA-Z0-9_-]+)==([0-9.]+)`. -/
def findAllDeps (cs : List Char) : List (String × String) :=
  findAllDepsAux cs.length cs

/-- Observable effects of a run, in program order.  `probe` is the
`python --version` subprocess, `scanDeps` the `pipdeptree -w` subprocess,
`markerEval env pkg` the `interpret(marker, package_string)` call,
`dryRunTool p` the no-write invocation `2to3 -n p`, `updateCall s d` entry
into `update_to_python_3_9(s, d)`, `copyTree s d` a completed
`shutil.copytree(s, d)`, `writeTool d` the write-mode invocation
`2to3 --write --nobackups d`, `fileWrite name content` a file created with
`open(name, "w")` whose final content at close is `content`, `logInfo` and
`logError` the logger calls, `consolePrint` a bare `print`, `readInput` the
`input(...)` call, and `setupLogging` the `setup_logging()` call. -/
inductive Event where
  | probe : Event
  | scanDeps : Event
  | markerEval : String → String → Event
  | dryRunTool : String → Event
  | updateCall : String → String → Event
  | copyTree : String → String → Event
  | writeTool : String → Event
  | fileWrite : String → String → Event
  | logInfo : String → Event
  | logError : String → Event
  | consolePrint : String → Event
  | readInput : Event
  | setupLogging : Event
deriving DecidableEq, Repr

/-- Python exceptions the embedded code can raise or handle. -/
inductive PyExc where
  | runtimeError : String → PyExc
  | attributeError : PyExc
  | calledProcessError : String → PyExc
  | fileExistsError : String → PyExc
deriving DecidableEq, Repr

/-- Approximate renderings of Python `str(e)`; no claim depends on the exact
text of these messages, only on the literal parts the script itself adds. -/
def pyStr : PyExc → String
  | PyExc.runtimeError m => m
  | PyExc.attributeError => "NoneType object has no attribute group"
  | PyExc.calledProcessError out => "Command returned non-zero exit status: " ++ out
  | PyExc.fileExistsError d => "File exists: " ++ d

/-- The external world the script runs against: whether the two hard-coded
directories exist, the outputs of the external processes (`Except.error` is a
non-zero exit carrying the process output), the environment-marker oracle,
the files produced by `os.walk` of the source directory (in walk order), the
per-file result of `2to3 -n`, and the line read from standard input. -/
structure World where
  srcExists : Bool
  destExists : Bool
  probeOutput : Except String String
  depsOutput : Except String String
  defaultEnv : String
  interpret : String → String → Bool
  walkFiles : List String
  dryRunOut : String → Except String String
  userInput : String

/-- Embedding of `scan_python_version`.  A non-zero exit of the subprocess is
caught and re-raised as `RuntimeError`; a failed regex search leaves `None`,
and the subsequent `.group(1)` raises an uncaught `AttributeError`. -/
def scan_python_version (w : World) (source_directory : String) :
    Except PyExc String × List Event :=
  match w.probeOutput with
  | Except.error out =>
    (Except.error (PyExc.runtimeError ("Failed to determine Python version: " ++ pyStrip out)),
     [Event.probe])
  | Except.ok version_info =>
    match searchVersion version_info.toList with
    | some python_version => (Except.ok python_version, [Event.probe])
    | none => (Except.error PyExc.attributeError, [Event.probe])

/-- Embedding of `scan_dependencies`: run `pipdeptree -w` (no error handling:
a non-zero exit propagates as `CalledProcessError`) and extract all
`name==version` pairs. -/
def scan_dependencies (w : World) : Except PyExc (List (String × String)) × List Event :=
  match w.depsOutput with
  | Except.error out => (Except.error (PyExc.calledProcessError out), [Event.scanDeps])
  | Except.ok dependency_tree =>
    (Except.ok (findAllDeps dependency_tree.toList), [Event.scanDeps])

/-- Embedding of `is_compatible`: build `name==version` and delegate to the
external marker evaluator applied to the current default environment. -/
def is_compatible (w : World) (package_name version : String) : Bool × List Event :=
  (w.interpret w.defaultEnv (package_name ++ "==" ++ version),
   [Event.markerEval w.defaultEnv (package_name ++ "==" ++ version)])

/-- The `for name, version in dependencies` loop of `main`: collect the
dependencies judged incompatible, in scan order, recording one marker
evaluation per dependency. -/
def checkLoop (w : World) : List (String × String) → List (String × String) × List Event
  | [] => ([], [])
  | nv :: rest =>
    let r0 := is_compatible w nv.1 nv.2
    let r := checkLoop w rest
    (if r0.1 then r.1 else nv :: r.1, r0.2 ++ r.2)

/-- Python-dict insertion on an association list: `d[k] = v` updates an
existing key in place and otherwise appends at the end (insertion order). -/
def dictInsert (k v : String) : List (String × String) → List (String × String)
  | [] => [(k, v)]
  | kv :: rest => if kv.1 = k then (k, v) :: rest else kv :: dictInsert k v rest

/-- The walk loop of `dry_run_2to3` over the `.py` files: on success record
the proposed diff in the `proposed_changes` dict; on a non-zero exit of
`2to3 -n` log the error and continue with the remaining files. -/
def dryRunLoop (w : World) (proposed_changes : List (String × String)) :
    List String → List (String × String) × List Event
  | [] => (proposed_changes, [])
  | p :: ps =>
    match w.dryRunOut p with
    | Except.ok out =>
      let r := dryRunLoop w (dictInsert p out proposed_changes) ps
      (r.1, Event.dryRunTool p :: r.2)
    | Except.error eo =>
      let r := dryRunLoop w proposed_changes ps
      (r.1, Event.dryRunTool p ::
        Event.logError ("Error during dry run for " ++ p ++ ": " ++ pyStrip eo) :: r.2)

/-- Embedding of `dry_run_2to3`: walk the tree, run `2to3 -n` on every file
ending in `.py`, then write all captured diffs to `changes_for_update.log`,
one `Changes for PATH:` header followed by the diff body per file. -/
def dry_run_2to3 (w : World) (source_directory : String) : List Event :=
  let r := dryRunLoop w [] (w.walkFiles.filter (fun f => pyEndsWith f ".py"))
  r.2 ++ [Event.fileWrite "changes_for_update.log"
    (String.join (r.1.map (fun pc => "Changes for " ++ pc.1 ++ ":\n" ++ pc.2 ++ "\n")))]

/-- Embedding of `update_to_python_3_9`: `shutil.copytree` raises
`FileExistsError` when the destination already exists (its default
`dirs_exist_ok=False` semantics) and otherwise copies the whole tree; only
after a successful copy is `2to3 --write --nobackups` run on the
destination. -/
def update_to_python_3_9 (w : World) (source_directory destination_directory : String) :
    Except PyExc Unit × List Event :=
  if w.destExists then
    (Except.error (PyExc.fileExistsError destination_directory),
     [Event.updateCall source_directory destination_directory])
  else
    (Except.ok (),
     [Event.updateCall source_directory destination_directory,
      Event.copyTree source_directory destination_directory,
      Event.writeTool destination_directory])

/-- One `name==version` line of `compatibility-concerns.log`. -/
def depLine (nv : String × String) : String :=
  nv.1 ++ "==" ++ nv.2 ++ "\n"

/-- Final content of `compatibility-concerns.log`. -/
def concernsContent (incompatible_dependencies : List (String × String)) : String :=
  String.join (incompatible_dependencies.map depLine)

namespace Script

/-- Embedding of lines 103-114 of `main`: the confirmation prompt result.
The line read from standard input is stripped and lowered; `y` runs the
migration executor (whose `FileExistsError`, the only exception reachable
here in this model, is caught by the surrounding `except Exception` and
logged), `n` cancels, and anything else logs an error and cancels. -/
def promptTail (w : World) (source_directory destination_directory : String) :
    List Event :=
  if pyLower (pyStrip w.userInput) = "y" then
    match update_to_python_3_9 w source_directory destination_directory with
    | (Except.ok _, evU) =>
      evU ++ [Event.logInfo "Update to Python 3.9 successful."]
    | (Except.error e, evU) =>
      evU ++ [Event.logError ("Error during update: " ++ pyStr e)]
  else if pyLower (pyStrip w.userInput) = "n" then
    [Event.logInfo "Update canceled."]
  else
    [Event.logError "Invalid input. Update canceled."]

/-- Embedding of `main`.  The Python `if incompatible_dependencies:` test is
the non-emptiness test; here the two branches appear with the empty case
first.  The inner `try` around the dry run, the prompt and the update catches
every exception (in this model only `update_to_python_3_9` can raise there),
and the outer `try` catches the dependency-scan failure; an `AttributeError`
escaping `scan_python_version` is caught by neither handler and propagates. -/
def main (w : World) (source_directory destination_directory : String) :
    List Event × Option PyExc :=
  match scan_python_version w source_directory with
  | (Except.ok current_python_version, ev0) =>
    let ev1 := ev0 ++ [Event.logInfo ("Detected Python version: " ++ current_python_version)]
    if pyStartsWith current_python_version "3.9" then
      (ev1 ++ [Event.logInfo "Python version is already 3.9.x. No need to update."], none)
    else
      match scan_dependencies w with
      | (Except.error e, ev2) =>
        (ev1 ++ ev2 ++ [Event.logError ("Error during dependency scan: " ++ pyStr e)], none)
      | (Except.ok dependencies, ev2) =>
        let r := checkLoop w dependencies
        if r.1.isEmpty then
          let evDry := dry_run_2to3 w source_directory
          let evTail := promptTail w source_directory destination_directory
          (ev1 ++ ev2 ++ r.2 ++
            [Event.logInfo "All dependencies are compatible with Python 3.9. Proceeding with the update."] ++
            evDry ++
            [Event.logInfo "Dry run completed. Proposed changes logged in \x27changes_for_update.log\x27.",
             Event.readInput] ++ evTail, none)
        else
          (ev1 ++ ev2 ++ r.2 ++
            [Event.logInfo "The following dependencies are not compatible with Python 3.9:"] ++
            r.1.map (fun nv => Event.logInfo (nv.1 ++ "==" ++ nv.2)) ++
            [Event.fileWrite "compatibility-concerns.log" (concernsContent r.1),
             Event.logInfo "Please review the compatibility-concerns.log file for more details."], none)
  | (Except.error (PyExc.runtimeError msg), ev0) =>
    (ev0 ++ [Event.logError msg], none)
  | (Except.error e, ev0) => (ev0, some e)

end Script

/-- Embedding of the `if __name__ == "__main__"` block: the two hard-coded
directory paths are checked with `os.path.exists` before the logger is
created; only when both exist is the logger set up and `main` run. -/
def mainEntry (w : World) : List Event × Option PyExc :=
  if w.srcExists = false then
    ([Event.consolePrint "Source directory \x27path_to_source_directory\x27 not found."], none)
  else if w.destExists = false then
    ([Event.consolePrint "Destination directory \x27path_to_destination_directory\x27 not found."], none)
  else
    let r := Script.main w "path_to_source_directory" "path_to_destination_directory"
    (Event.setupLogging :: r.1, r.2)

/-- Extract the data of a `fileWrite` event. -/
def fileWriteData : Event → Option (String × String)
  | Event.fileWrite n c => some (n, c)
  | _ => none

/-- All files written by a run, with their final contents, in order. -/
def fileWrites (evs : List Event) : List (String × String) :=
  evs.filterMap fileWriteData

/-- Extract the path of a no-write `2to3 -n` invocation. -/
def dryRunPathOf : Event → Option String
  | Event.dryRunTool p => some p
  | _ => none

/-- The paths passed to `2to3 -n`, in invocation order. -/
def dryRunPaths (evs : List Event) : List String :=
  evs.filterMap dryRunPathOf

/-- Events belonging to the migration executor: entering
`update_to_python_3_9`, a completed tree copy, or a write-mode `2to3` run. -/
def isMigrationEvent : Event → Bool
  | Event.updateCall _ _ => true
  | Event.copyTree _ _ => true
  | Event.writeTool _ => true
  | _ => false

/-- Modelled from the spec: a version string of the shape `3.9.x`, i.e. the
literal `3.9.` followed by a non-empty digit sequence (used only to compare
the spec wording against the prefix guard the code actually uses). -/
def matches39x (s : String) : Bool :=
  pyStartsWith s "3.9." && !(s.toList.drop 4).isEmpty && (s.toList.drop 4).all Char.isDigit

/-- The compatibility loop performs exactly one marker evaluation per scanned
dependency, in scan order. -/
theorem checkLoop_snd (w : World) (l : List (String × String)) :
    (checkLoop w l).2 =
      l.map (fun nv => Event.markerEval w.defaultEnv (nv.1 ++ "==" ++ nv.2)) := by
  induction l with
  | nil => rfl
  | cons nv rest ih => simp [checkLoop, is_compatible, ih]

/-- The dry-run walk invokes `2to3 -n` exactly on the files it is given, in
order, regardless of per-file failures. -/
theorem dryRunLoop_paths (w : World) (d : List (String × String)) (ps : List String) :
    dryRunPaths (dryRunLoop w d ps).2 = ps := by
  induction ps generalizing d with
  | nil => rfl
  | cons p ps ih =>
    cases h : w.dryRunOut p with
    | ok out =>
      simpa [dryRunLoop, h, dryRunPaths, dryRunPathOf] using ih (dictInsert p out d)
    | error eo =>
      simpa [dryRunLoop, h, dryRunPaths, dryRunPathOf] using ih d

/-- A per-file `2to3 -n` failure inside the walk is logged. -/
theorem dryRunLoop_logError_mem (w : World) (d : List (String × String))
    (ps : List String) (p eo : String) (hp : p ∈ ps)
    (he : w.dryRunOut p = Except.error eo) :
    Event.logError ("Error during dry run for " ++ p ++ ": " ++ pyStrip eo) ∈
      (dryRunLoop w d ps).2 := by
  induction ps generalizing d with
  | nil => cases hp
  | cons q ps ih =>
    rcases List.mem_cons.mp hp with rfl | hp2
    · simp [dryRunLoop, he]
    · cases h : w.dryRunOut q with
      | ok out => simp [dryRunLoop, h, ih _ hp2]
      | error eo2 => simp [dryRunLoop, h, ih _ hp2]

/-- Inserting a fresh key into a Python dict appends it at the end. -/
theorem dictInsert_not_mem (k v : String) (l : List (String × String))
    (h : k ∉ l.map Prod.fst) : dictInsert k v l = l ++ [(k, v)] := by
  induction l with
  | nil => rfl
  | cons kv rest ih =>
    simp only [List.map_cons, List.mem_cons] at h
    push_neg at h
    simp [dictInsert, Ne.symm h.1, ih h.2]

/-- With pairwise-distinct file paths (as any real `os.walk` produces), the
`proposed_changes` dict collects precisely the successfully previewed files,
in walk order. -/
theorem dryRunLoop_fst (w : World) (d : List (String × String)) (ps : List String)
    (hnd : ps.Nodup) (hdisj : ∀ p ∈ ps, p ∉ d.map Prod.fst) :
    (dryRunLoop w d ps).1 = d ++ ps.filterMap (fun p =>
      match w.dryRunOut p with
      | Except.ok out => some (p, out)
      | Except.error _ => none) := by
  induction ps generalizing d with
  | nil => simp [dryRunLoop]
  | cons p ps ih =>
    cases h : w.dryRunOut p with
    | ok out =>
      have hfst : p ∉ d.map Prod.fst := hdisj p (List.mem_cons_self p ps)
      have hins := dictInsert_not_mem p out d hfst
      have hrec := ih (dictInsert p out d) (List.Nodup.of_cons hnd) (by
        intro q hq
        rw [hins]
        simp only [List.map_append, List.mem_append, List.map_cons, List.map_nil,
          List.mem_singleton]
        rintro (hqd | rfl)
        · exact hdisj q (List.mem_cons_of_mem p hq) hqd
        · exact (List.nodup_cons.mp hnd).1 hq)
      rw [hins] at hrec
      simp only [dryRunLoop, h]
      rw [hins, hrec]
      simp [List.filterMap_cons, h, List.append_assoc]
    | error eo =>
      have hrec := ih d (List.Nodup.of_cons hnd) (fun q hq =>
        hdisj q (List.mem_cons_of_mem p hq))
      simp [dryRunLoop, h, hrec]

/-- The walk itself performs no migration action. -/
theorem dryRunLoop_no_migration (w : World) (d : List (String × String))
    (ps : List String) :
    ((dryRunLoop w d ps).2).filter isMigrationEvent = [] := by
  induction ps generalizing d with
  | nil => rfl
  | cons p ps ih =>
    cases h : w.dryRunOut p with
    | ok out => simp [dryRunLoop, h, isMigrationEvent, ih]
    | error eo => simp [dryRunLoop, h, isMigrationEvent, ih]

/-- The walk itself writes no file. -/
theorem dryRunLoop_fileWrites (w : World) (d : List (String × String))
    (ps : List String) :
    fileWrites (dryRunLoop w d ps).2 = [] := by
  induction ps generalizing d with
  | nil => rfl
  | cons p ps ih =>
    cases h : w.dryRunOut p with
    | ok out =>
      simpa [dryRunLoop, h, fileWrites, fileWriteData] using ih (dictInsert p out d)
    | error eo =>
      simpa [dryRunLoop, h, fileWrites, fileWriteData] using ih d

/-- Every event of the dry-run walk is either a `2to3 -n` invocation or an
error-log entry. -/
theorem dryRunLoop_mem_shape (w : World) (d : List (String × String))
    (ps : List String) :
    ∀ e ∈ (dryRunLoop w d ps).2,
      (∃ p, e = Event.dryRunTool p) ∨ ∃ m, e = Event.logError m := by
  induction ps generalizing d with
  | nil => intro e he; cases he
  | cons p ps ih =>
    intro e he
    cases h : w.dryRunOut p with
    | ok out =>
      rw [dryRunLoop, h] at he
      rcases List.mem_cons.mp he with rfl | he2
      · exact Or.inl ⟨p, rfl⟩
      · exact ih (dictInsert p out d) e he2
    | error eo =>
      rw [dryRunLoop, h] at he
      rcases List.mem_cons.mp he with rfl | he2
      · exact Or.inl ⟨p, rfl⟩
      · rcases List.mem_cons.mp he2 with rfl | he3
        · exact Or.inr ⟨_, rfl⟩
        · exact ih d e he3

theorem writeTool_not_mem_dryRunLoop (w : World) (dd : List (String × String))
    (ps : List String) (d : String) :
    Event.writeTool d ∉ (dryRunLoop w dd ps).2 := by
  intro h
  rcases dryRunLoop_mem_shape w dd ps _ h with ⟨p, hp⟩ | ⟨m, hm⟩ <;> simp_all

theorem copyTree_not_mem_dryRunLoop (w : World) (dd : List (String × String))
    (ps : List String) (a b : String) :
    Event.copyTree a b ∉ (dryRunLoop w dd ps).2 := by
  intro h
  rcases dryRunLoop_mem_shape w dd ps _ h with ⟨p, hp⟩ | ⟨m, hm⟩ <;> simp_all

theorem fileWrite_not_mem_dryRunLoop (w : World) (dd : List (String × String))
    (ps : List String) (n c : String) :
    Event.fileWrite n c ∉ (dryRunLoop w dd ps).2 := by
  intro h
  rcases dryRunLoop_mem_shape w dd ps _ h with ⟨p, hp⟩ | ⟨m, hm⟩ <;> simp_all

theorem updateCall_not_mem_dryRunLoop (w : World) (dd : List (String × String))
    (ps : List String) (a b : String) :
    Event.updateCall a b ∉ (dryRunLoop w dd ps).2 := by
  intro h
  rcases dryRunLoop_mem_shape w dd ps _ h with ⟨p, hp⟩ | ⟨m, hm⟩ <;> simp_all

/-- The prompt tail never invokes `2to3 -n`. -/
theorem promptTail_paths (w : World) (src dst : String) :
    dryRunPaths (Script.promptTail w src dst) = [] := by
  rw [Script.promptTail]
  split_ifs with hy hn
  · cases hd : w.destExists <;>
      simp [update_to_python_3_9, hd, dryRunPaths, dryRunPathOf]
  · rfl
  · rfl

/-- The prompt tail writes no file. -/
theorem promptTail_fileWrites (w : World) (src dst : String) :
    fileWrites (Script.promptTail w src dst) = [] := by
  rw [Script.promptTail]
  split_ifs with hy hn
  · cases hd : w.destExists <;>
      simp [update_to_python_3_9, hd, fileWrites, fileWriteData]
  · rfl
  · rfl

theorem dryRunLoop_paths_fm (w : World) (d : List (String × String)) (ps : List String) :
    List.filterMap dryRunPathOf (dryRunLoop w d ps).2 = ps :=
  dryRunLoop_paths w d ps

theorem promptTail_paths_fm (w : World) (src dst : String) :
    List.filterMap dryRunPathOf (Script.promptTail w src dst) = [] :=
  promptTail_paths w src dst

theorem dryRunLoop_fileWrites_fm (w : World) (d : List (String × String)) (ps : List String) :
    List.filterMap fileWriteData (dryRunLoop w d ps).2 = [] :=
  dryRunLoop_fileWrites w d ps

theorem promptTail_fileWrites_fm (w : World) (src dst : String) :
    List.filterMap fileWriteData (Script.promptTail w src dst) = [] :=
  promptTail_fileWrites w src dst

theorem dryRunPaths_markerEvals (env : String) (l : List (String × String)) :
    List.filterMap dryRunPathOf
      (l.map (fun nv => Event.markerEval env (nv.1 ++ "==" ++ nv.2))) = [] := by
  induction l with
  | nil => rfl
  | cons a l ih => simp [dryRunPathOf, ih]

theorem fileWrites_markerEvals (env : String) (l : List (String × String)) :
    List.filterMap fileWriteData
      (l.map (fun nv => Event.markerEval env (nv.1 ++ "==" ++ nv.2))) = [] := by
  induction l with
  | nil => rfl
  | cons a l ih => simp [fileWriteData, ih]

theorem migration_markerEvals (env : String) (l : List (String × String)) :
    List.filter isMigrationEvent
      (l.map (fun nv => Event.markerEval env (nv.1 ++ "==" ++ nv.2))) = [] := by
  induction l with
  | nil => rfl
  | cons a l ih => simp [isMigrationEvent, ih]

theorem fileWrites_map_logInfo {α : Type} (f : α → String) (l : List α) :
    List.filterMap fileWriteData (l.map (fun a => Event.logInfo (f a))) = [] := by
  induction l with
  | nil => rfl
  | cons a l ih => simp [fileWriteData, ih]

theorem migration_map_logInfo {α : Type} (f : α → String) (l : List α) :
    List.filter isMigrationEvent (l.map (fun a => Event.logInfo (f a))) = [] := by
  induction l with
  | nil => rfl
  | cons a l ih => simp [isMigrationEvent, ih]

/-- A world in which the probe reports Python 3.8.10, the single scanned
dependency flask 1.0.0 is judged incompatible, and both directories exist. -/
def wIncompat : World :=
  { srcExists := true, destExists := true,
    probeOutput := Except.ok "Python 3.8.10",
    depsOutput := Except.ok "flask==1.0.0",
    defaultEnv := "env",
    interpret := fun _ _ => false,
    walkFiles := ["a.py"],
    dryRunOut := fun _ => Except.ok "diff",
    userInput := "y" }

/-- Like `wIncompat` but every dependency is judged compatible and the user
confirms with a capital `Y`; the destination directory exists. -/
def wCompat : World :=
  { srcExists := true, destExists := true,
    probeOutput := Except.ok "Python 3.8.10",
    depsOutput := Except.ok "flask==1.0.0",
    defaultEnv := "env",
    interpret := fun _ _ => true,
    walkFiles := ["a.py", "b.txt"],
    dryRunOut := fun _ => Except.ok "diff",
    userInput := "Y" }

/-- All dependencies compatible, user confirms, destination absent: the only
world shape in which the migration executor can succeed. -/
def wFreshDest : World :=
  { srcExists := true, destExists := false,
    probeOutput := Except.ok "Python 3.8.10",
    depsOutput := Except.ok "flask==1.0.0",
    defaultEnv := "env",
    interpret := fun _ _ => true,
    walkFiles := ["a.py"],
    dryRunOut := fun _ => Except.ok "diff",
    userInput := "y" }

/-- The `python --version` subprocess exits non-zero with output `boom`. -/
def wProbeFail : World :=
  { srcExists := true, destExists := true,
    probeOutput := Except.error "boom",
    depsOutput := Except.ok "",
    defaultEnv := "env",
    interpret := fun _ _ => true,
    walkFiles := [],
    dryRunOut := fun _ => Except.ok "",
    userInput := "y" }

/-- The source directory does not exist. -/
def wNoSrc : World :=
  { srcExists := false, destExists := true,
    probeOutput := Except.ok "Python 3.8.10",
    depsOutput := Except.ok "",
    defaultEnv := "env",
    interpret := fun _ _ => true,
    walkFiles := [],
    dryRunOut := fun _ => Except.ok "",
    userInput := "y" }

/-- The probe reports version 3.90.0: it has the prefix `3.9` without being a
`3.9.x` version. -/
def wNinety : World :=
  { srcExists := true, destExists := true,
    probeOutput := Except.ok "Python 3.90.0",
    depsOutput := Except.ok "flask==1.0.0",
    defaultEnv := "env",
    interpret := fun _ _ => false,
    walkFiles := ["a.py"],
    dryRunOut := fun _ => Except.ok "diff",
    userInput := "y" }

/-- All dependencies compatible; the dry run succeeds on `a.py`, fails on
`b.py`, and `c.txt` is not a Python file. -/
def wDryMixed : World :=
  { srcExists := true, destExists := true,
    probeOutput := Except.ok "Python 3.8.10",
    depsOutput := Except.ok "flask==1.0.0",
    defaultEnv := "env",
    interpret := fun _ _ => true,
    walkFiles := ["a.py", "b.py", "c.txt"],
    dryRunOut := fun p => if p = "a.py" then Except.ok "diffA" else Except.error "boomB",
    userInput := "n" }

/-- C3: for every name/version pair, the compatibility check returns a boolean
verdict obtained directly from a single marker-evaluation call against the
current default environment, with no other effect and no failure path of its
own. -/
theorem c3_compat_single_marker_call (w : World) (package_name version : String) :
    is_compatible w package_name version =
      (w.interpret w.defaultEnv (package_name ++ "==" ++ version),
       [Event.markerEval w.defaultEnv (package_name ++ "==" ++ version)]) := rfl

/-- When the probe subprocess exits non-zero, the run is the probe followed
by the logged `RuntimeError`, and nothing escapes. -/
theorem main_probe_error_run (w : World) (src dst out : String)
    (h : w.probeOutput = Except.error out) :
    Script.main w src dst =
      ([Event.probe,
        Event.logError ("Failed to determine Python version: " ++ pyStrip out)], none) := by
  simp [Script.main, scan_python_version, h]

/-- When the probe output has no version match, the `AttributeError` escapes
after the probe alone. -/
theorem main_probe_nomatch_run (w : World) (src dst s : String)
    (h : w.probeOutput = Except.ok s) (hs : searchVersion s.toList = none) :
    Script.main w src dst = ([Event.probe], some PyExc.attributeError) := by
  have hs2 : searchVersion s.data = none := hs
  simp [Script.main, scan_python_version, h, hs, hs2]

/-- C7: when the version probe subprocess exits non-zero, `main` logs the
re-raised `RuntimeError` and stops (nothing else runs, no exception escapes);
when the subprocess succeeds but its output has no `Python X.Y.Z` match, the
`.group(1)` access raises an `AttributeError` that no handler catches, so it
escapes `main` after only the probe has run. -/
theorem c7_probe_error_handling (w : World) (src dst : String) :
    (∀ out, w.probeOutput = Except.error out →
      Script.main w src dst =
        ([Event.probe,
          Event.logError ("Failed to determine Python version: " ++ pyStrip out)], none)) ∧
    (∀ s, w.probeOutput = Except.ok s → searchVersion s.toList = none →
      Script.main w src dst = ([Event.probe], some PyExc.attributeError)) :=
  ⟨fun out h => main_probe_error_run w src dst out h,
   fun s h hs => main_probe_nomatch_run w src dst s h hs⟩

theorem c7_probe_error_handling_witness :
    Script.main wProbeFail "s" "d" =
      ([Event.probe,
        Event.logError ("Failed to determine Python version: " ++ pyStrip "boom")], none) :=
  (c7_probe_error_handling wProbeFail "s" "d").1 "boom" rfl

/-- C9: when either hard-coded directory is missing, the entry point prints a
single console message and stops: the result carries no exception, and the
run performs no other event, in particular the logger is never created and
nothing is logged. -/
theorem c9_missing_dirs_print_only (w : World) :
    (w.srcExists = false →
      mainEntry w =
        ([Event.consolePrint "Source directory \x27path_to_source_directory\x27 not found."],
         none)) ∧
    (w.srcExists = true → w.destExists = false →
      mainEntry w =
        ([Event.consolePrint "Destination directory \x27path_to_destination_directory\x27 not found."],
         none)) := by
  constructor
  · intro h
    simp [mainEntry, h]
  · intro h1 h2
    simp [mainEntry, h1, h2]

theorem c9_missing_dirs_print_only_witness :
    mainEntry wNoSrc =
      ([Event.consolePrint "Source directory \x27path_to_source_directory\x27 not found."],
       none) :=
  (c9_missing_dirs_print_only wNoSrc).1 rfl

/-- C2 (amended): the migration executor copies the whole source tree and
only then runs the rewrite tool in write mode on the destination — but only
when the destination does not already exist.  When the destination exists
(which the entry-point check requires of every run started from the script),
the copy primitive fails with `FileExistsError` before copying anything, and
the write-mode rewrite is never reached. -/
theorem c2_update_copy_then_rewrite (w : World) (src dst : String) :
    (w.destExists = false →
      update_to_python_3_9 w src dst =
        (Except.ok (),
         [Event.updateCall src dst, Event.copyTree src dst, Event.writeTool dst])) ∧
    (w.destExists = true →
      update_to_python_3_9 w src dst =
        (Except.error (PyExc.fileExistsError dst), [Event.updateCall src dst])) := by
  constructor <;> intro h <;> simp [update_to_python_3_9, h]

theorem c2_update_copy_then_rewrite_witness :
    update_to_python_3_9 wFreshDest "s" "d" =
      (Except.ok (),
       [Event.updateCall "s" "d", Event.copyTree "s" "d", Event.writeTool "d"]) :=
  (c2_update_copy_then_rewrite wFreshDest "s" "d").1 rfl

/-- C2 counterexample: a full run through the entry point (both hard-coded
directories exist, probe reports 3.8.10, the single dependency is compatible,
the dry run succeeds, the user confirms with `y`) reaches the migration
executor, yet no tree copy and no write-mode rewrite ever happens — the copy
fails on the existing destination and the error is caught and logged — so
after this confirmed run the destination is not a copy of the source. -/
theorem c2_counterexample :
    Event.updateCall "path_to_source_directory" "path_to_destination_directory"
        ∈ (mainEntry wCompat).1 ∧
    Event.copyTree "path_to_source_directory" "path_to_destination_directory"
        ∉ (mainEntry wCompat).1 ∧
    Event.writeTool "path_to_destination_directory" ∉ (mainEntry wCompat).1 ∧
    Event.logError ("Error during update: " ++
        pyStr (PyExc.fileExistsError "path_to_destination_directory"))
        ∈ (mainEntry wCompat).1 := by
  decide

/-- C5 (amended): assuming the probe succeeded and its output matched, the
workflow reports the already-on-3.9 message and skips the dependency scanner
exactly when the detected version string has the string prefix `3.9` — a
prefix match, not a `3.9.x` pattern match, so version strings such as
`3.90.0` also terminate there. -/
theorem c5_already_target_iff_prefix (w : World) (src dst s v : String)
    (h1 : w.probeOutput = Except.ok s)
    (h2 : searchVersion s.toList = some v) :
    pyStartsWith v "3.9" = true ↔
      (Event.logInfo "Python version is already 3.9.x. No need to update."
          ∈ (Script.main w src dst).1 ∧
       Event.scanDeps ∉ (Script.main w src dst).1) := by
  have h2d : searchVersion s.data = some v := h2
  cases h39 : pyStartsWith v "3.9" with
  | true =>
    have hrun : Script.main w src dst =
        ([Event.probe, Event.logInfo ("Detected Python version: " ++ v),
          Event.logInfo "Python version is already 3.9.x. No need to update."], none) := by
      simp [Script.main, scan_python_version, h1, h2, h2d, h39]
    simp [hrun]
  | false =>
    have hmem : Event.scanDeps ∈ (Script.main w src dst).1 := by
      cases hd : w.depsOutput with
      | error out =>
        simp [Script.main, scan_python_version, h1, h2, h2d, h39, scan_dependencies, hd]
      | ok t =>
        simp [Script.main, scan_python_version, h1, h2, h2d, h39,
          scan_dependencies, hd]
        split <;> simp
    simp [h39, hmem]

theorem c5_already_target_iff_prefix_witness :
    pyStartsWith "3.8.10" "3.9" = true ↔
      (Event.logInfo "Python version is already 3.9.x. No need to update."
          ∈ (Script.main wIncompat "s" "d").1 ∧
       Event.scanDeps ∉ (Script.main wIncompat "s" "d").1) :=
  c5_already_target_iff_prefix wIncompat "s" "d" "Python 3.8.10" "3.8.10" rfl (by decide)

/-- C5 counterexample: the detected version string `3.90.0` is not of the
form `3.9.x`, yet the workflow reports the already-on-3.9 message and never
invokes the dependency scanner, because the guard is a bare `3.9` prefix
match. -/
theorem c5_counterexample :
    (scan_python_version wNinety "s").1 = Except.ok "3.90.0" ∧
    matches39x "3.90.0" = false ∧
    Event.logInfo "Python version is already 3.9.x. No need to update."
        ∈ (Script.main wNinety "s" "d").1 ∧
    Event.scanDeps ∉ (Script.main wNinety "s" "d").1 :=
  ⟨rfl, by decide, by decide, by decide⟩

theorem filterMap_const_none {α β : Type} (l : List α) :
    List.filterMap (fun _ => (none : Option β)) l = [] := by
  induction l with
  | nil => rfl
  | cons a l ih => simp [List.filterMap_cons, ih]

/-- C1: whenever the run reaches the dependency check and at least one
scanned dependency is judged incompatible, the single file written is
`compatibility-concerns.log`, whose content is exactly one `name==version`
line per incompatible dependency in scan order, and the migration executor —
tree copy and write-mode rewrite included — is never invoked. -/
theorem c1_incompatible_log_no_migration (w : World) (src dst s v t : String)
    (h1 : w.probeOutput = Except.ok s)
    (h2 : searchVersion s.toList = some v)
    (h3 : pyStartsWith v "3.9" = false)
    (h4 : w.depsOutput = Except.ok t)
    (h5 : (checkLoop w (findAllDeps t.toList)).1 ≠ []) :
    fileWrites (Script.main w src dst).1 =
      [("compatibility-concerns.log",
        concernsContent (checkLoop w (findAllDeps t.toList)).1)] ∧
    (Script.main w src dst).1.filter isMigrationEvent = [] := by
  have h2d : searchVersion s.data = some v := h2
  have h5d : (checkLoop w (findAllDeps t.data)).1 ≠ [] := h5
  constructor
  · simp [Script.main, scan_python_version, h1, h2, h2d, h3, scan_dependencies, h4, h5d,
      fileWrites, fileWriteData, checkLoop_snd, fileWrites_markerEvals,
      fileWrites_map_logInfo, Function.comp_def, filterMap_const_none]
  · simp [Script.main, scan_python_version, h1, h2, h2d, h3, scan_dependencies, h4, h5d,
      isMigrationEvent, checkLoop_snd, migration_markerEvals, migration_map_logInfo,
      Function.comp_def]

theorem c1_incompatible_log_no_migration_witness :
    fileWrites (Script.main wIncompat "s" "d").1 =
      [("compatibility-concerns.log",
        concernsContent (checkLoop wIncompat (findAllDeps "flask==1.0.0".toList)).1)] ∧
    (Script.main wIncompat "s" "d").1.filter isMigrationEvent = [] :=
  c1_incompatible_log_no_migration wIncompat "s" "d" "Python 3.8.10" "3.8.10"
    "flask==1.0.0" rfl (by decide) (by decide) rfl (by decide)

/-- C6: whenever the run reaches the dependency check and every scanned
dependency is judged compatible, `2to3 -n` is invoked exactly on the files
ending in `.py` produced by the recursive walk of the source tree, once each,
in walk order, and on no other file. -/
theorem c6_dry_run_once_per_py_file (w : World) (src dst s v t : String)
    (h1 : w.probeOutput = Except.ok s)
    (h2 : searchVersion s.toList = some v)
    (h3 : pyStartsWith v "3.9" = false)
    (h4 : w.depsOutput = Except.ok t)
    (h5 : (checkLoop w (findAllDeps t.toList)).1 = []) :
    dryRunPaths (Script.main w src dst).1 =
      w.walkFiles.filter (fun f => pyEndsWith f ".py") := by
  have h2d : searchVersion s.data = some v := h2
  have h5d : (checkLoop w (findAllDeps t.data)).1 = [] := h5
  simp [Script.main, scan_python_version, h1, h2, h2d, h3, scan_dependencies, h4, h5d,
    dry_run_2to3, dryRunPaths, dryRunPathOf, checkLoop_snd, dryRunPaths_markerEvals,
    dryRunLoop_paths_fm, promptTail_paths_fm, Function.comp_def, filterMap_const_none]

theorem c6_dry_run_once_per_py_file_witness :
    dryRunPaths (Script.main wCompat "s" "d").1 =
      wCompat.walkFiles.filter (fun f => pyEndsWith f ".py") :=
  c6_dry_run_once_per_py_file wCompat "s" "d" "Python 3.8.10" "3.8.10"
    "flask==1.0.0" rfl (by decide) (by decide) rfl (by decide)

/-- C4: at the confirmation prompt (reached when the probe succeeded with a
non-3.9 version and every scanned dependency is compatible), the raw inputs
`Y`, `y` and ` Y ` all lead into the migration executor; `N` or `n` cancels
with an informational message and without any migration action (no executor
entry, no copy, no write-mode rewrite); and any input whose stripped,
lowered form is neither `y` nor `n` cancels with an error log entry, again
without any migration action. -/
theorem c4_confirmation_prompt (w : World) (src dst s v t : String)
    (h1 : w.probeOutput = Except.ok s)
    (h2 : searchVersion s.toList = some v)
    (h3 : pyStartsWith v "3.9" = false)
    (h4 : w.depsOutput = Except.ok t)
    (h5 : (checkLoop w (findAllDeps t.toList)).1 = []) :
    ((w.userInput = "Y" ∨ w.userInput = "y" ∨ w.userInput = " Y ") →
      Event.updateCall src dst ∈ (Script.main w src dst).1) ∧
    ((w.userInput = "N" ∨ w.userInput = "n") →
      Event.logInfo "Update canceled." ∈ (Script.main w src dst).1 ∧
      (Script.main w src dst).1.filter isMigrationEvent = []) ∧
    (pyLower (pyStrip w.userInput) ≠ "y" → pyLower (pyStrip w.userInput) ≠ "n" →
      Event.logError "Invalid input. Update canceled." ∈ (Script.main w src dst).1 ∧
      (Script.main w src dst).1.filter isMigrationEvent = []) := by
  have h2d : searchVersion s.data = some v := h2
  have h5d : (checkLoop w (findAllDeps t.data)).1 = [] := h5
  have hrun : (Script.main w src dst).1 =
      [Event.probe, Event.logInfo ("Detected Python version: " ++ v), Event.scanDeps] ++
      (checkLoop w (findAllDeps t.toList)).2 ++
      [Event.logInfo "All dependencies are compatible with Python 3.9. Proceeding with the update."] ++
      dry_run_2to3 w src ++
      [Event.logInfo "Dry run completed. Proposed changes logged in \x27changes_for_update.log\x27.",
       Event.readInput] ++ Script.promptTail w src dst := by
    simp [Script.main, scan_python_version, h1, h2, h2d, h3, scan_dependencies, h4, h5d]
  have hnomig : ∀ tl, Script.promptTail w src dst = tl →
      List.filter isMigrationEvent tl = [] →
      (Script.main w src dst).1.filter isMigrationEvent = [] := by
    intro tl htl hfl
    rw [hrun, htl]
    simp [List.filter_append, isMigrationEvent, checkLoop_snd, Function.comp_def,
      migration_markerEvals, dry_run_2to3, dryRunLoop_no_migration, hfl]
  refine ⟨?_, ?_, ?_⟩
  · intro hin
    have hy : pyLower (pyStrip w.userInput) = "y" := by
      rcases hin with h | h | h <;> rw [h] <;> decide
    have htailmem : Event.updateCall src dst ∈ Script.promptTail w src dst := by
      rw [Script.promptTail, if_pos hy]
      cases hd : w.destExists <;> simp [update_to_python_3_9, hd]
    rw [hrun]
    simp only [List.mem_append]
    exact Or.inr htailmem
  · intro hin
    have hn : pyLower (pyStrip w.userInput) = "n" := by
      rcases hin with h | h <;> rw [h] <;> decide
    have hy : ¬ pyLower (pyStrip w.userInput) = "y" := by
      rw [hn]; decide
    have htail : Script.promptTail w src dst = [Event.logInfo "Update canceled."] := by
      rw [Script.promptTail, if_neg hy, if_pos hn]
    constructor
    · rw [hrun, htail]
      simp
    · exact hnomig _ htail (by simp [isMigrationEvent])
  · intro hy hn
    have htail : Script.promptTail w src dst =
        [Event.logError "Invalid input. Update canceled."] := by
      rw [Script.promptTail, if_neg hy, if_neg hn]
    constructor
    · rw [hrun, htail]
      simp
    · exact hnomig _ htail (by simp [isMigrationEvent])

theorem c4_confirmation_prompt_witness :
    Event.updateCall "s" "d" ∈ (Script.main wCompat "s" "d").1 :=
  (c4_confirmation_prompt wCompat "s" "d" "Python 3.8.10" "3.8.10" "flask==1.0.0"
    rfl (by decide) (by decide) rfl (by decide)).1 (Or.inl rfl)

/-- C8: during the dry-run batch the walk visits every `.py` file even when
`2to3 -n` fails on some of them, each per-file failure is logged, and the
single file written — `changes_for_update.log` — consists of exactly one
`Changes for PATH:` header plus diff body per successfully previewed file,
in walk order, and nothing for the failed files. -/
theorem c8_dry_run_failure_nonfatal (w : World) (sd : String)
    (hnd : (w.walkFiles.filter (fun f => pyEndsWith f ".py")).Nodup) :
    dryRunPaths (dry_run_2to3 w sd) =
      w.walkFiles.filter (fun f => pyEndsWith f ".py") ∧
    (∀ p eo, p ∈ w.walkFiles.filter (fun f => pyEndsWith f ".py") →
      w.dryRunOut p = Except.error eo →
      Event.logError ("Error during dry run for " ++ p ++ ": " ++ pyStrip eo)
        ∈ dry_run_2to3 w sd) ∧
    fileWrites (dry_run_2to3 w sd) =
      [("changes_for_update.log",
        String.join ((w.walkFiles.filter (fun f => pyEndsWith f ".py")).filterMap
          (fun p => match w.dryRunOut p with
            | Except.ok out => some ("Changes for " ++ p ++ ":\n" ++ out ++ "\n")
            | Except.error _ => none)))] := by
  refine ⟨?_, ?_, ?_⟩
  · simp [dry_run_2to3, dryRunPaths, dryRunPathOf, dryRunLoop_paths_fm]
  · intro p eo hp he
    have hmem := dryRunLoop_logError_mem w [] _ p eo hp he
    simp only [dry_run_2to3]
    exact List.mem_append_left _ hmem
  · have hfst := dryRunLoop_fst w [] (w.walkFiles.filter (fun f => pyEndsWith f ".py"))
      hnd (by simp)
    have hpt : ∀ p : String,
        Option.map (fun pc : String × String => "Changes for " ++ pc.1 ++ ":\n" ++ pc.2 ++ "\n")
          (match w.dryRunOut p with
            | Except.ok out => some (p, out)
            | Except.error _ => none) =
        (match w.dryRunOut p with
          | Except.ok out => some ("Changes for " ++ p ++ ":\n" ++ out ++ "\n")
          | Except.error _ => none) := by
      intro p
      cases w.dryRunOut p <;> rfl
    simp [dry_run_2to3, fileWrites, fileWriteData, dryRunLoop_fileWrites_fm, hfst,
      List.map_filterMap, hpt]

theorem c8_dry_run_failure_nonfatal_witness :
    dryRunPaths (dry_run_2to3 wDryMixed "s") =
      wDryMixed.walkFiles.filter (fun f => pyEndsWith f ".py") ∧
    Event.logError ("Error during dry run for " ++ "b.py" ++ ": " ++ pyStrip "boomB")
      ∈ dry_run_2to3 wDryMixed "s" ∧
    fileWrites (dry_run_2to3 wDryMixed "s") =
      [("changes_for_update.log",
        String.join ((wDryMixed.walkFiles.filter (fun f => pyEndsWith f ".py")).filterMap
          (fun p => match wDryMixed.dryRunOut p with
            | Except.ok out => some ("Changes for " ++ p ++ ":\n" ++ out ++ "\n")
            | Except.error _ => none)))] :=
  ⟨(c8_dry_run_failure_nonfatal wDryMixed "s" (by decide)).1,
   (c8_dry_run_failure_nonfatal wDryMixed "s" (by decide)).2.1 "b.py" "boomB"
     (by decide) rfl,
   (c8_dry_run_failure_nonfatal wDryMixed "s" (by decide)).2.2⟩

/-- C10: no run modifies the source tree.  Write-mode `2to3` is only ever
applied to the destination directory, and only in a run that previously
completed the tree copy into that destination; a completed copy always has
the source as its origin and the destination as its target; and the only
files the script itself writes are its two log files.  The dry-run step is
a no-write invocation by construction (`dryRunTool`). -/
theorem c10_source_tree_never_modified (w : World) (src dst : String) :
    (∀ d, Event.writeTool d ∈ (Script.main w src dst).1 →
      d = dst ∧ Event.copyTree src dst ∈ (Script.main w src dst).1) ∧
    (∀ a b, Event.copyTree a b ∈ (Script.main w src dst).1 →
      a = src ∧ b = dst) ∧
    (∀ n c, Event.fileWrite n c ∈ (Script.main w src dst).1 →
      n = "changes_for_update.log" ∨ n = "compatibility-concerns.log") := by
  rcases hp : w.probeOutput with out | s
  · have hrun : Script.main w src dst =
        ([Event.probe,
          Event.logError ("Failed to determine Python version: " ++ pyStrip out)], none) :=
      main_probe_error_run w src dst out hp
    simp [hrun]
  · rcases hv : searchVersion s.toList with _ | v
    · have hrun : Script.main w src dst = ([Event.probe], some PyExc.attributeError) :=
        main_probe_nomatch_run w src dst s hp hv
      simp [hrun]
    · have hvd : searchVersion s.data = some v := hv
      cases h39 : pyStartsWith v "3.9" with
      | true =>
        have hrun : Script.main w src dst =
            ([Event.probe, Event.logInfo ("Detected Python version: " ++ v),
              Event.logInfo "Python version is already 3.9.x. No need to update."], none) := by
          simp [Script.main, scan_python_version, hp, hv, hvd, h39]
        simp [hrun]
      | false =>
        rcases hd : w.depsOutput with out | t
        · have hrun : (Script.main w src dst).1 =
              [Event.probe, Event.logInfo ("Detected Python version: " ++ v),
               Event.scanDeps,
               Event.logError ("Error during dependency scan: " ++
                 pyStr (PyExc.calledProcessError out))] := by
            simp [Script.main, scan_python_version, hp, hv, hvd, h39, scan_dependencies, hd]
          simp [hrun]
        · by_cases hie : (checkLoop w (findAllDeps t.data)).1 = []
          · have hrun : (Script.main w src dst).1 =
                [Event.probe, Event.logInfo ("Detected Python version: " ++ v),
                 Event.scanDeps] ++
                (checkLoop w (findAllDeps t.data)).2 ++
                [Event.logInfo "All dependencies are compatible with Python 3.9. Proceeding with the update."] ++
                ((dryRunLoop w [] (w.walkFiles.filter (fun f => pyEndsWith f ".py"))).2 ++
                  [Event.fileWrite "changes_for_update.log"
                    (String.join (((dryRunLoop w []
                      (w.walkFiles.filter (fun f => pyEndsWith f ".py"))).1).map
                        (fun pc => "Changes for " ++ pc.1 ++ ":\n" ++ pc.2 ++ "\n")))]) ++
                [Event.logInfo "Dry run completed. Proposed changes logged in \x27changes_for_update.log\x27.",
                 Event.readInput] ++ Script.promptTail w src dst := by
              simp [Script.main, scan_python_version, hp, hv, hvd, h39,
                scan_dependencies, hd, hie, dry_run_2to3]
            by_cases hy : pyLower (pyStrip w.userInput) = "y"
            · cases hdest : w.destExists with
              | true =>
                have htail : Script.promptTail w src dst =
                    [Event.updateCall src dst,
                     Event.logError ("Error during update: " ++
                       pyStr (PyExc.fileExistsError dst))] := by
                  rw [Script.promptTail, if_pos hy]
                  simp [update_to_python_3_9, hdest]
                refine ⟨?_, ?_, ?_⟩
                · intro d hmem
                  rw [hrun, htail] at hmem
                  simp [checkLoop_snd, writeTool_not_mem_dryRunLoop] at hmem
                · intro a b hmem
                  rw [hrun, htail] at hmem
                  simp [checkLoop_snd, copyTree_not_mem_dryRunLoop] at hmem
                · intro n c hmem
                  rw [hrun, htail] at hmem
                  simp [checkLoop_snd, fileWrite_not_mem_dryRunLoop] at hmem
                  exact Or.inl hmem.1
              | false =>
                have htail : Script.promptTail w src dst =
                    [Event.updateCall src dst, Event.copyTree src dst,
                     Event.writeTool dst,
                     Event.logInfo "Update to Python 3.9 successful."] := by
                  rw [Script.promptTail, if_pos hy]
                  simp [update_to_python_3_9, hdest]
                refine ⟨?_, ?_, ?_⟩
                · intro d hmem
                  rw [hrun, htail] at hmem
                  simp [checkLoop_snd, writeTool_not_mem_dryRunLoop] at hmem
                  refine ⟨hmem, ?_⟩
                  rw [hrun, htail]
                  simp
                · intro a b hmem
                  rw [hrun, htail] at hmem
                  simp [checkLoop_snd, copyTree_not_mem_dryRunLoop] at hmem
                  exact hmem
                · intro n c hmem
                  rw [hrun, htail] at hmem
                  simp [checkLoop_snd, fileWrite_not_mem_dryRunLoop] at hmem
                  exact Or.inl hmem.1
            · by_cases hn : pyLower (pyStrip w.userInput) = "n"
              · have htail : Script.promptTail w src dst =
                    [Event.logInfo "Update canceled."] := by
                  rw [Script.promptTail, if_neg hy, if_pos hn]
                refine ⟨?_, ?_, ?_⟩
                · intro d hmem
                  rw [hrun, htail] at hmem
                  simp [checkLoop_snd, writeTool_not_mem_dryRunLoop] at hmem
                · intro a b hmem
                  rw [hrun, htail] at hmem
                  simp [checkLoop_snd, copyTree_not_mem_dryRunLoop] at hmem
                · intro n c hmem
                  rw [hrun, htail] at hmem
                  simp [checkLoop_snd, fileWrite_not_mem_dryRunLoop] at hmem
                  exact Or.inl hmem.1
              · have htail : Script.promptTail w src dst =
                    [Event.logError "Invalid input. Update canceled."] := by
                  rw [Script.promptTail, if_neg hy, if_neg hn]
                refine ⟨?_, ?_, ?_⟩
                · intro d hmem
                  rw [hrun, htail] at hmem
                  simp [checkLoop_snd, writeTool_not_mem_dryRunLoop] at hmem
                · intro a b hmem
                  rw [hrun, htail] at hmem
                  simp [checkLoop_snd, copyTree_not_mem_dryRunLoop] at hmem
                · intro n c hmem
                  rw [hrun, htail] at hmem
                  simp [checkLoop_snd, fileWrite_not_mem_dryRunLoop] at hmem
                  exact Or.inl hmem.1
          · have hrun : (Script.main w src dst).1 =
                [Event.probe, Event.logInfo ("Detected Python version: " ++ v),
                 Event.scanDeps] ++
                (checkLoop w (findAllDeps t.data)).2 ++
                [Event.logInfo "The following dependencies are not compatible with Python 3.9:"] ++
                ((checkLoop w (findAllDeps t.data)).1).map
                  (fun nv => Event.logInfo (nv.1 ++ "==" ++ nv.2)) ++
                [Event.fileWrite "compatibility-concerns.log"
                   (concernsContent (checkLoop w (findAllDeps t.data)).1),
                 Event.logInfo "Please review the compatibility-concerns.log file for more details."] := by
              simp [Script.main, scan_python_version, hp, hv, hvd, h39,
                scan_dependencies, hd, hie]
            refine ⟨?_, ?_, ?_⟩
            · intro d hmem
              rw [hrun] at hmem
              simp [checkLoop_snd] at hmem
            · intro a b hmem
              rw [hrun] at hmem
              simp [checkLoop_snd] at hmem
            · intro n c hmem
              rw [hrun] at hmem
              simp [checkLoop_snd] at hmem
              exact Or.inr hmem.1

theorem c10_source_tree_never_modified_witness :
    "d" = "d" ∧ Event.copyTree "s" "d" ∈ (Script.main wFreshDest "s" "d").1 :=
  (c10_source_tree_never_modified wFreshDest "s" "d").1 "d" (by decide)
